import Mathlib

/-!
Verification of the Java language helper of the fn CLI (`langs` package):
FDK version resolution (`GetLatestFDKVersion`, `getFDKLatestFromURL`,
`getURLResponse`, `parseMavenResponse`, `parseBintrayResponse`), boilerplate
generation (`GenerateBoilerplate`, `pomFileContent`), and the Docker build
recipe (`DockerfileBuildCmds`, `mavenOpts`).

The Go code is embedded shallowly:
* HTTP responses are an oracle (`Network`): each registry URL is mapped to
  either a transport failure (`client.Get` returns a nil response and a
  non-nil error) or a status code plus a body.
* Response bodies are classified by what the Go decoders make of them:
  `Body.xmlMetadata m` stands for bytes that `xml.Unmarshal` decodes into the
  `ParsedResponse` value `m`, `Body.jsonPackages vs` for bytes that
  `json.Unmarshal` decodes into a `[]parsedResponse` slice whose
  `latest_version` fields are `vs`, and `Body.malformed` for bytes that
  neither decoder accepts.
* Go functions that can panic (nil-pointer dereference, index out of range)
  return `GoResult.panicked`; a non-nil `error` return is `GoResult.err`.
* The environment is an oracle `String → String` (`os.Getenv`, `""` = unset),
  and the filesystem-existence check is an oracle `String → Bool`; filesystem
  effects are recorded as an ordered `List FSOp` trace, with writes modelled
  as succeeding (no claim concerns write failures).
-/

/-- Outcome of a Go function: a normal value (`error == nil`), a non-nil
`error` carrying a message, or a runtime panic. -/
inductive GoResult (α : Type) where
  | ok (val : α)
  | err (msg : String)
  | panicked
deriving DecidableEq

/-- Which upstream registry a network query went to: the Maven Central
metadata URL (primary) or the Bintray search URL (secondary). -/
inductive Src where
  | primary
  | secondary
deriving DecidableEq

/-- The `versions` node of the Maven metadata, as decoded by `xml.Unmarshal`
into the anonymous `ParsedResponse` struct of `parseMavenResponse`. -/
structure VersionsNode where
  text : String
  version : List String
deriving DecidableEq

/-- The `versioning` node of the Maven metadata. -/
structure VersioningNode where
  text : String
  latest : String
  release : String
  versions : VersionsNode
  lastUpdated : String
deriving DecidableEq

/-- The decoded Maven `metadata` document (`ParsedResponse` in the Go). -/
structure MavenMetadata where
  text : String
  groupId : String
  artifactId : String
  versioning : VersioningNode
deriving DecidableEq

/-- A response body, classified by what the Go decoders make of it. -/
inductive Body where
  | xmlMetadata (m : MavenMetadata)
  | jsonPackages (latestVersions : List String)
  | malformed
deriving DecidableEq

/-- Behaviour of one HTTP GET: `transportError` is `client.Get` failing with
a nil `*http.Response` (e.g. unreachable host); otherwise a status code and
a body. -/
inductive HTTPResult where
  | transportError
  | response (status : Nat) (body : Body)
deriving DecidableEq

/-- Network oracle: what each of the two fixed registry URLs answers. -/
structure Network where
  primary : HTTPResult
  secondary : HTTPResult
deriving DecidableEq

/-- The mutable fields of the Go `JavaLangHelper` struct. -/
structure JavaLangHelper where
  version : String
  latestFdkVersion : String
  pomType : String
deriving DecidableEq

def bintrayVersionURL : String :=
  "https://api.bintray.com/search/packages/maven?repo=fnproject&g=com.fnproject.fn&a=fdk"

def mavenVersionUrl : String :=
  "https://repo1.maven.org/maven2/com/fnproject/fn/fdk/maven-metadata.xml"

def versionEnv : String := "FN_JAVA_FDK_VERSION"

/-- The `fetchError` message built in `GetLatestFDKVersion`. -/
def fetchError : String :=
  "Failed to fetch latest Java FDK javaVersion. Check your network settings or manually override the javaVersion by setting " ++ versionEnv

/-- Embedding of `getURLResponse`. On a transport error the Go function
panics: `resp` is nil and `defer resp.Body.Close()` dereferences it (as does
`resp.StatusCode` in the error branch). On a non-200 status it returns a
formatted error; on 200 it returns the body bytes. -/
def getURLResponse (url : String) (inSecureSkipVerify : Bool) (r : HTTPResult) :
    GoResult Body :=
  match r with
  | HTTPResult.transportError => GoResult.panicked
  | HTTPResult.response status body =>
      if status = 200 then GoResult.ok body
      else GoResult.err
        ("Failed to fetch response from URL " ++ url ++ " Error: <nil> Status: " ++ toString status)

/-- Embedding of `parseMavenResponse`: `xml.Unmarshal` then reject documents
with an empty `versioning/versions/version` list, otherwise return
`versioning/latest`. -/
def parseMavenResponse (data : Body) : GoResult String :=
  match data with
  | Body.xmlMetadata m =>
      if m.versioning.versions.version.length = 0 then
        GoResult.err "Maven response is not valid"
      else
        GoResult.ok m.versioning.latest
  | _ => GoResult.err "xml unmarshal error"

/-- Embedding of `parseBintrayResponse`. The Go allocates
`make([]parsedResponse, 1)`, but `json.Unmarshal` resets the slice to the
decoded array's length, so for the JSON array `[]` the subsequent
`parsedResp[0]` is an index-out-of-range panic. -/
def parseBintrayResponse (data : Body) : GoResult String :=
  match data with
  | Body.jsonPackages latestVersions =>
      match latestVersions with
      | [] => GoResult.panicked
      | v :: _ => GoResult.ok v
  | _ => GoResult.err "json unmarshal error"

/-- Result of `getFDKLatestFromURL` plus the ordered trace of registry
queries it performed. -/
structure FetchResult where
  res : GoResult (String × String)
  queries : List Src
deriving DecidableEq

/-- Embedding of `getFDKLatestFromURL`. Note the Go `err` variable is
overwritten by every `getURLResponse` call, so the final `return "", "", err`
returns whatever the *second* call left there — which is nil when the
secondary GET returned 200 but its body failed to parse. -/
def getFDKLatestFromURL (net : Network) : FetchResult :=
  let secondTry : FetchResult :=
    match getURLResponse bintrayVersionURL true net.secondary with
    | GoResult.panicked => ⟨GoResult.panicked, [Src.primary, Src.secondary]⟩
    | GoResult.ok data =>
        match parseBintrayResponse data with
        | GoResult.ok v => ⟨GoResult.ok (v, "bintray"), [Src.primary, Src.secondary]⟩
        | GoResult.panicked => ⟨GoResult.panicked, [Src.primary, Src.secondary]⟩
        | GoResult.err _ => ⟨GoResult.ok ("", ""), [Src.primary, Src.secondary]⟩
    | GoResult.err m => ⟨GoResult.err m, [Src.primary, Src.secondary]⟩
  match getURLResponse mavenVersionUrl false net.primary with
  | GoResult.panicked => ⟨GoResult.panicked, [Src.primary]⟩
  | GoResult.ok data =>
      match parseMavenResponse data with
      | GoResult.ok v => ⟨GoResult.ok (v, "maven"), [Src.primary]⟩
      | _ => secondTry
  | GoResult.err _ => secondTry

/-- Result of `GetLatestFDKVersion`: the returned `(string, error)` pair, the
helper state after the call (the receiver is a pointer and may be mutated),
and the trace of registry queries. -/
structure ResolveResult where
  res : GoResult String
  helper : JavaLangHelper
  queries : List Src
deriving DecidableEq

/-- Embedding of `GetLatestFDKVersion`. The in-process cache check comes
first, then the `FN_JAVA_FDK_VERSION` override, then the two-source network
chain; on (nil-error) network success the result and its source are cached. -/
def GetLatestFDKVersion (h : JavaLangHelper) (env : String → String)
    (net : Network) : ResolveResult :=
  if h.latestFdkVersion ≠ "" then
    ⟨GoResult.ok h.latestFdkVersion, h, []⟩
  else
    let version := env versionEnv
    if version ≠ "" then
      ⟨GoResult.ok version, h, []⟩
    else
      let f := getFDKLatestFromURL net
      match f.res with
      | GoResult.ok (v, pType) =>
          ⟨GoResult.ok v, { h with latestFdkVersion := v, pomType := pType }, f.queries⟩
      | GoResult.err _ => ⟨GoResult.err fetchError, h, f.queries⟩
      | GoResult.panicked => ⟨GoResult.panicked, h, f.queries⟩
def mavenPomPre : String :=
  "<?xml version=\"1.0\" encoding=\"UTF-8\"?>\n<project xmlns=\"http://maven.apache.org/POM/4.0.0\"\n         xmlns:xsi=\"http://www.w3.org/2001/XMLSchema-instance\"\n         xsi:schemaLocation=\"http://maven.apache.org/POM/4.0.0 http://maven.apache.org/xsd/maven-4.0.0.xsd\">\n    <modelVersion>4.0.0</modelVersion>\n    <properties>\n        <project.build.sourceEncoding>UTF-8</project.build.sourceEncoding>\n        <fdk.version>"

def mavenPomMid1 : String :=
  "</fdk.version>\n    </properties>\n    <groupId>com.example.fn</groupId>\n    <artifactId>hello</artifactId>\n    <version>1.0.0</version>\n\n    <dependencies>\n        <dependency>\n            <groupId>com.fnproject.fn</groupId>\n            <artifactId>api</artifactId>\n            <version>$\x7bfdk.version\x7d</version>\n        </dependency>\n        <dependency>\n            <groupId>com.fnproject.fn</groupId>\n            <artifactId>testing-core</artifactId>\n            <version>$\x7bfdk.version\x7d</version>\n            <scope>test</scope>\n        </dependency>\n        <dependency>\n            <groupId>com.fnproject.fn</groupId>\n            <artifactId>testing-junit4</artifactId>\n            <version>$\x7bfdk.version\x7d</version>\n            <scope>test</scope>\n        </dependency>\n        <dependency>\n            <groupId>junit</groupId>\n            <artifactId>junit</artifactId>\n            <version>4.12</version>\n            <scope>test</scope>\n        </dependency>\n    </dependencies>\n\n    <build>\n        <plugins>\n            <plugin>\n                <groupId>org.apache.maven.plugins</groupId>\n                <artifactId>maven-compiler-plugin</artifactId>\n                <version>3.3</version>\n                <configuration>\n                    <source>"

def mavenPomMid2 : String :=
  "</source>\n                    <target>"

def mavenPomPost : String :=
  "</target>\n                </configuration>\n            </plugin>\n            <plugin>\n                 <groupId>org.apache.maven.plugins</groupId>\n                 <artifactId>maven-surefire-plugin</artifactId>\n                 <version>2.22.1</version>\n                 <configuration>\n                     <useSystemClassLoader>false</useSystemClassLoader>\n                 </configuration>\n            </plugin>\n        </plugins>\n    </build>\n</project>\n"

def bintrayPomPre : String :=
  "<?xml version=\"1.0\" encoding=\"UTF-8\"?>\n<project xmlns=\"http://maven.apache.org/POM/4.0.0\"\n         xmlns:xsi=\"http://www.w3.org/2001/XMLSchema-instance\"\n         xsi:schemaLocation=\"http://maven.apache.org/POM/4.0.0 http://maven.apache.org/xsd/maven-4.0.0.xsd\">\n    <modelVersion>4.0.0</modelVersion>\n    <properties>\n        <project.build.sourceEncoding>UTF-8</project.build.sourceEncoding>\n        <fdk.version>"

def bintrayPomMid1 : String :=
  "</fdk.version>\n    </properties>\n    <groupId>com.example.fn</groupId>\n    <artifactId>hello</artifactId>\n    <version>1.0.0</version>\n\n\t<repositories>\n        <repository>\n            <id>fn-release-repo</id>\n            <url>https://dl.bintray.com/fnproject/fnproject</url>\n            <releases>\n                <enabled>true</enabled>\n            </releases>\n            <snapshots>\n                <enabled>false</enabled>\n            </snapshots>\n        </repository>\n    </repositories>\n\n    <dependencies>\n        <dependency>\n            <groupId>com.fnproject.fn</groupId>\n            <artifactId>api</artifactId>\n            <version>$\x7bfdk.version\x7d</version>\n        </dependency>\n        <dependency>\n            <groupId>com.fnproject.fn</groupId>\n            <artifactId>testing-core</artifactId>\n            <version>$\x7bfdk.version\x7d</version>\n            <scope>test</scope>\n        </dependency>\n        <dependency>\n            <groupId>com.fnproject.fn</groupId>\n            <artifactId>testing-junit4</artifactId>\n            <version>$\x7bfdk.version\x7d</version>\n            <scope>test</scope>\n        </dependency>\n        <dependency>\n            <groupId>junit</groupId>\n            <artifactId>junit</artifactId>\n            <version>4.12</version>\n            <scope>test</scope>\n        </dependency>\n    </dependencies>\n\n    <build>\n        <plugins>\n            <plugin>\n                <groupId>org.apache.maven.plugins</groupId>\n                <artifactId>maven-compiler-plugin</artifactId>\n                <version>3.3</version>\n                <configuration>\n                    <source>"

def bintrayPomMid2 : String :=
  "</source>\n                    <target>"

def bintrayPomPost : String :=
  "</target>\n                </configuration>\n            </plugin>\n            <plugin>\n                 <groupId>org.apache.maven.plugins</groupId>\n                 <artifactId>maven-surefire-plugin</artifactId>\n                 <version>2.22.1</version>\n                 <configuration>\n                     <useSystemClassLoader>false</useSystemClassLoader>\n                 </configuration>\n            </plugin>\n        </plugins>\n    </build>\n</project>\n"

def helloJavaSrcBoilerplate : String :=
  "package com.example.fn;\n\npublic class HelloFunction \x7b\n\n    public String handleRequest(String input) \x7b\n        String name = (input == null || input.isEmpty()) ? \"world\"  : input;\n\n        System.out.println(\"Inside Java Hello World function\"); \n        return \"Hello, \" + name + \"!\";\n    \x7d\n\n\x7d"

def helloJavaTestBoilerplate : String :=
  "package com.example.fn;\n\nimport com.fnproject.fn.testing.*;\nimport org.junit.*;\n\nimport static org.junit.Assert.*;\n\npublic class HelloFunctionTest \x7b\n\n    @Rule\n    public final FnTestingRule testing = FnTestingRule.createDefault();\n\n    @Test\n    public void shouldReturnGreeting() \x7b\n        testing.givenEvent().enqueue();\n        testing.thenRun(HelloFunction.class, \"handleRequest\");\n\n        FnResult result = testing.getOnlyResult();\n        assertEquals(\"Hello, world!\", result.getBodyAsString());\n    \x7d\n\n\x7d"

/-- Embedding of `fmt.Sprintf(mavenPomFile, a, b, c)`: the Go `mavenPomFile` template
constant with its three `%s` verbs (fdk version, compiler source, compiler
target) substituted. The template text is kept verbatim in the four
surrounding pieces. -/
def mavenPomFile (a b c : String) : String :=
  mavenPomPre ++ (a ++ (mavenPomMid1 ++ (b ++ (mavenPomMid2 ++ (c ++ mavenPomPost)))))

/-- Embedding of `fmt.Sprintf(bintrayPomFile, a, b, c)`: the Go `bintrayPomFile` template
constant (which additionally declares the Bintray release repository) with
its three `%s` verbs substituted. -/
def bintrayPomFile (a b c : String) : String :=
  bintrayPomPre ++ (a ++ (bintrayPomMid1 ++ (b ++ (bintrayPomMid2 ++ (c ++ bintrayPomPost)))))

/-- Embedding of `pomFileContent`: select the Maven-Central manifest template
when the resolved source was `"maven"`, the Bintray one otherwise. -/
def pomFileContent (APIversion javaVersion pomType : String) : String :=
  if pomType = "maven" then mavenPomFile APIversion javaVersion javaVersion
  else bintrayPomFile APIversion javaVersion javaVersion

/-- One recorded filesystem effect of `GenerateBoilerplate`. -/
inductive FSOp where
  | writeFile (path : String) (content : String)
  | mkdirAll (dir : String)
deriving DecidableEq

/-- Models `filepath.Join` for the clean relative segments used here. -/
def joinPath (a b : String) : String := a ++ "/" ++ b

/-- Modelled from the spec: the `ManifestAlreadyExistsError` sentinel
(`ErrBoilerplateExists`), declared in a helper file of the `langs` package
that is outside the provided sources. -/
def ErrBoilerplateExists : String := "Function boilerplate already exists"

/-- Result of `GenerateBoilerplate`: returned error, helper state after the
call, ordered filesystem-effect trace, and registry-query trace. -/
structure GenResult where
  res : GoResult Unit
  helper : JavaLangHelper
  ops : List FSOp
  queries : List Src
deriving DecidableEq

/-- Embedding of `GenerateBoilerplate`. `fs` is the `exists` oracle
(`os.Stat` succeeding on a path). The pom is written first, from
`pomFileContent(apiVersion, h.version, h.pomType)` with `h.pomType` as left
by the `GetLatestFDKVersion` call; then the source and test trees. Writes
are modelled as succeeding and recorded in order. -/
def GenerateBoilerplate (h : JavaLangHelper) (path : String)
    (fs : String → Bool) (env : String → String) (net : Network) : GenResult :=
  let pathToPomFile := joinPath path "pom.xml"
  if fs pathToPomFile then
    ⟨GoResult.err ErrBoilerplateExists, h, [], []⟩
  else
    let r := GetLatestFDKVersion h env net
    match r.res with
    | GoResult.ok apiVersion =>
        let h2 := r.helper
        ⟨GoResult.ok (), h2,
          [FSOp.writeFile pathToPomFile (pomFileContent apiVersion h2.version h2.pomType),
           FSOp.mkdirAll (joinPath path "src/main/java/com/example/fn"),
           FSOp.writeFile (joinPath (joinPath path "src/main/java/com/example/fn") "HelloFunction.java")
             helloJavaSrcBoilerplate,
           FSOp.mkdirAll (joinPath path "src/test/java/com/example/fn"),
           FSOp.writeFile (joinPath (joinPath path "src/test/java/com/example/fn") "HelloFunctionTest.java")
             helloJavaTestBoilerplate],
          r.queries⟩
    | GoResult.err e => ⟨GoResult.err e, r.helper, [], r.queries⟩
    | GoResult.panicked => ⟨GoResult.panicked, r.helper, [], r.queries⟩

/-- What `net/url.Parse` exposes of a parsed proxy URL via `Hostname()` and
`Port()`. -/
structure GoURL where
  hostname : String
  port : String
deriving DecidableEq

/-- Character-level embedding of `strings.Replace(s, ",", "|", -1)` (the
pattern and replacement are single characters, so the substring replacement
is a per-character substitution). -/
def replaceCommaPipeChars : List Char → List Char
  | [] => []
  | c :: cs => (if c = ',' then '|' else c) :: replaceCommaPipeChars cs

/-- Lifting of `replaceCommaPipeChars` to strings. -/
def goReplaceCommaPipe (s : String) : String :=
  String.mk (replaceCommaPipeChars s.data)

/-- Embedding of `mavenOpts`. `urlParse` is the `net/url.Parse` oracle
(`none` = non-nil error, in which case the Go skips that proxy block). -/
def mavenOpts (urlParse : String → Option GoURL) (env : String → String) : String :=
  let httpPart :=
    match urlParse (env "http_proxy") with
    | some u => "-Dhttp.proxyHost=" ++ u.hostname ++ " " ++ ("-Dhttp.proxyPort=" ++ u.port ++ " ")
    | none => ""
  let httpsPart :=
    match urlParse (env "https_proxy") with
    | some u => "-Dhttps.proxyHost=" ++ u.hostname ++ " " ++ ("-Dhttps.proxyPort=" ++ u.port ++ " ")
    | none => ""
  httpPart ++ httpsPart ++
    ("-Dhttp.nonProxyHosts=" ++ goReplaceCommaPipe (env "no_proxy") ++ " ") ++
    "-Dmaven.repo.local=/usr/share/maven/ref/repository"

/-- Embedding of `DockerfileBuildCmds`: the five build-stage instructions. -/
def DockerfileBuildCmds (urlParse : String → Option GoURL) (env : String → String) :
    List String :=
  ["ENV MAVEN_OPTS " ++ mavenOpts urlParse env,
   "ADD pom.xml /function/pom.xml",
   "RUN [\"mvn\", \"package\", \"dependency:copy-dependencies\", \"-DincludeScope=runtime\", \"-DskipTests=true\", \"-Dmdep.prependGroupId=true\", \"-DoutputDirectory=target\", \"--fail-never\"]",
   "ADD src /function/src",
   "RUN [\"mvn\", \"package\"]"]

/-- Whether `needle` occurs as a contiguous substring of `hay`. -/
def containsSubstring (needle : List Char) : List Char → Bool
  | [] => needle.isEmpty
  | c :: t => needle.isPrefixOf (c :: t) || containsSubstring needle t

/-- Opening tag of the manifest's version property. -/
def markerOpen : List Char := "<fdk.version>".data

/-- Closing tag of the manifest's version property. -/
def markerClose : List Char := "</fdk.version>".data

/-- Drop everything up to and including the first occurrence of marker `m`;
`none` when `m` does not occur. -/
def afterMarker (m : List Char) : List Char → Option (List Char)
  | [] => none
  | c :: cs =>
      if m.isPrefixOf (c :: cs) then some ((c :: cs).drop m.length)
      else afterMarker m cs

/-- The characters strictly before the first occurrence of marker `m`;
`none` when `m` does not occur. -/
def takeUntilMarker (m : List Char) : List Char → Option (List Char)
  | [] => none
  | c :: cs =>
      if m.isPrefixOf (c :: cs) then some []
      else
        match takeUntilMarker m cs with
        | some r => some (c :: r)
        | none => none

/-- Modelled from the spec: "re-reading the manifest's embedded version
field" — extract the text of the first `fdk.version` property element of a
generated manifest. (The repository itself ships no manifest reader.) -/
def readFdkVersion (content : String) : Option String :=
  (afterMarker markerOpen content.data).bind fun rest =>
    (takeUntilMarker markerClose rest).map fun v => String.mk v

/-! Concrete fixtures used by witnesses and counterexamples. -/

/-- Environment oracle with every variable unset. -/
def envEmpty : String → String := fun _ => ""

/-- Environment oracle with only `FN_JAVA_FDK_VERSION` set, to `"2.0.0"`. -/
def envOverride : String → String := fun k => if k == versionEnv then "2.0.0" else ""

/-- Environment oracle with only `FN_JAVA_FDK_VERSION` set, to `"2.3.1"`. -/
def envOverride231 : String → String := fun k => if k == versionEnv then "2.3.1" else ""

/-- Both registries unreachable (transport errors). -/
def netUnreachable : Network := ⟨HTTPResult.transportError, HTTPResult.transportError⟩

/-- A well-formed Maven metadata document with two version entries. -/
def mTwoVersions : MavenMetadata :=
  ⟨"", "com.fnproject.fn", "fdk", ⟨"", "1.2.3", "1.2.3", ⟨"", ["1.0.0", "1.2.3"]⟩, "20200101"⟩⟩

/-- Primary answers 200 with well-formed metadata; secondary is unreachable. -/
def netPrimaryOk : Network :=
  ⟨HTTPResult.response 200 (Body.xmlMetadata mTwoVersions), HTTPResult.transportError⟩

/-- A structurally valid metadata document with no version entries. -/
def mNoVersions : MavenMetadata := ⟨"", "com.fnproject.fn", "fdk", ⟨"", "", "", ⟨"", []⟩, ""⟩⟩

/-- Both registries answer 200 but with bodies their parsers reject. -/
def netBothMalformed : Network :=
  ⟨HTTPResult.response 200 (Body.xmlMetadata mNoVersions),
   HTTPResult.response 200 Body.malformed⟩

/-- Both registries answer with a 503 status. -/
def netBoth503 : Network :=
  ⟨HTTPResult.response 503 Body.malformed, HTTPResult.response 503 Body.malformed⟩

/-- Primary unreachable; secondary answers 200 with `[{"latest_version":"2.3.1"}]`. -/
def netPrimaryUnreachable : Network :=
  ⟨HTTPResult.transportError, HTTPResult.response 200 (Body.jsonPackages ["2.3.1"])⟩

/-- Primary answers 503; secondary answers 200 with `[{"latest_version":"2.3.1"}]`. -/
def netPrimary503 : Network :=
  ⟨HTTPResult.response 503 Body.malformed, HTTPResult.response 200 (Body.jsonPackages ["2.3.1"])⟩

/-- Filesystem oracle: only `proj/pom.xml` exists. -/
def fsWithPom : String → Bool := fun p => p == "proj/pom.xml"

/-- Filesystem oracle: only `fn/pom.xml` exists. -/
def fsWithPomFn : String → Bool := fun p => p == "fn/pom.xml"

/-- Filesystem oracle: nothing exists. -/
def fsNone : String → Bool := fun _ => false

/-- A concrete `net/url.Parse` oracle for the two proxy URLs used in tests. -/
def urlParseTest : String → Option GoURL := fun s =>
  if s == "http://p1:3128" then some ⟨"p1", "3128"⟩
  else if s == "http://p2:3129" then some ⟨"p2", "3129"⟩
  else none

/-- Proxy environment: `http_proxy`, `https_proxy` and a two-host `no_proxy`. -/
def envProxy : String → String := fun k =>
  if k == "http_proxy" then "http://p1:3128"
  else if k == "https_proxy" then "http://p2:3129"
  else if k == "no_proxy" then "localhost,127.0.0.1"
  else ""

/-! Helper lemmas about `List.isPrefixOf` and the marker scanners. -/

theorem isPrefixOf_length (m t : List Char) (h : m.isPrefixOf t = true) :
    m.length ≤ t.length := by
  induction m generalizing t with
  | nil => exact Nat.zero_le _
  | cons a m ih =>
    cases t with
    | nil => simp [List.isPrefixOf] at h
    | cons b t' =>
      simp only [List.isPrefixOf, Bool.and_eq_true, beq_iff_eq] at h
      exact Nat.succ_le_succ (ih t' h.2)

theorem isPrefixOf_eq_of_length (m t : List Char) (h : m.isPrefixOf t = true)
    (hl : t.length ≤ m.length) : m = t := by
  induction m generalizing t with
  | nil =>
    cases t with
    | nil => rfl
    | cons b t' => simp at hl
  | cons a m ih =>
    cases t with
    | nil => simp [List.isPrefixOf] at h
    | cons b t' =>
      simp only [List.isPrefixOf, Bool.and_eq_true, beq_iff_eq] at h
      rw [h.1, ih t' h.2 (Nat.le_of_succ_le_succ hl)]

theorem isPrefixOf_append_of_le (m t s : List Char) (h : m.length ≤ t.length) :
    m.isPrefixOf (t ++ s) = m.isPrefixOf t := by
  induction m generalizing t with
  | nil => simp [List.isPrefixOf]
  | cons a m ih =>
    cases t with
    | nil => simp at h
    | cons b t' =>
      simp only [List.cons_append, List.isPrefixOf, List.append_eq]
      rw [ih t' (Nat.le_of_succ_le_succ h)]

theorem isPrefixOf_self (l : List Char) : l.isPrefixOf l = true := by
  induction l with
  | nil => rfl
  | cons a l ih => simp [List.isPrefixOf, ih]

theorem afterMarker_le (m p r : List Char) (h : afterMarker m p = some r) :
    m.length ≤ p.length := by
  induction p with
  | nil => simp [afterMarker] at h
  | cons c cs ih =>
    rw [afterMarker] at h
    by_cases hp : m.isPrefixOf (c :: cs) = true
    · exact isPrefixOf_length _ _ hp
    · rw [if_neg (by simpa using hp)] at h
      exact Nat.le_succ_of_le (ih h)

theorem afterMarker_append (m p s : List Char) (hp : afterMarker m p = some []) :
    afterMarker m (p ++ s) = some s := by
  induction p with
  | nil => simp [afterMarker] at hp
  | cons c cs ih =>
    rw [afterMarker] at hp
    by_cases hb : m.isPrefixOf (c :: cs) = true
    · rw [if_pos (by simpa using hb)] at hp
      have hdrop : (c :: cs).drop m.length = [] := by simpa using hp
      have hlen : (c :: cs).length ≤ m.length := List.drop_eq_nil_iff.mp hdrop
      have hm : m = c :: cs := isPrefixOf_eq_of_length _ _ hb hlen
      rw [List.cons_append, afterMarker]
      have hb2 : m.isPrefixOf (c :: (cs ++ s)) = true := by
        have hrw := isPrefixOf_append_of_le m (c :: cs) s (Nat.le_of_eq (by rw [hm]))
        rw [List.cons_append] at hrw
        rw [hrw]; exact hb
      rw [if_pos (by simpa using hb2)]
      rw [← List.cons_append, hm, List.drop_left]
    · rw [if_neg (by simpa using hb)] at hp
      have hle : m.length ≤ cs.length := afterMarker_le m cs [] hp
      rw [List.cons_append, afterMarker]
      have hb2 : m.isPrefixOf (c :: (cs ++ s)) = false := by
        have hrw := isPrefixOf_append_of_le m (c :: cs) s (Nat.le_succ_of_le hle)
        rw [List.cons_append] at hrw
        rw [hrw]
        exact Bool.eq_false_iff.mpr hb
      rw [if_neg (by simp [hb2])]
      exact ih hp

theorem takeUntilMarker_prefix_close (v sf : List Char)
    (hv : ∀ c ∈ v, c ≠ '<') (hsf : markerClose.isPrefixOf sf = true) :
    takeUntilMarker markerClose (v ++ sf) = some v := by
  induction v with
  | nil =>
    cases sf with
    | nil => simp [markerClose, List.isPrefixOf] at hsf
    | cons c t =>
      rw [List.nil_append, takeUntilMarker, if_pos (by simpa using hsf)]
  | cons c v' ih =>
    have hc : c ≠ '<' := hv c (by simp)
    have hv' : ∀ x ∈ v', x ≠ '<' := fun x hx => hv x (by simp [hx])
    rw [List.cons_append, takeUntilMarker]
    have hfalse : markerClose.isPrefixOf (c :: (v' ++ sf)) = false := by
      have hmk : markerClose = '<' :: "/fdk.version>".data := by decide
      have hbeq : ('<' == c) = false := beq_eq_false_iff_ne.mpr (Ne.symm hc)
      rw [hmk]
      simp only [List.isPrefixOf, hbeq, Bool.false_and]
    rw [if_neg (by simp [hfalse]), ih hv']

theorem readFdkVersion_roundtrip_piece (pre mid1 rest v : String)
    (hpre : afterMarker markerOpen pre.data = some [])
    (hmid : markerClose.isPrefixOf mid1.data = true)
    (hv : ∀ c ∈ v.data, c ≠ '<') :
    readFdkVersion (pre ++ (v ++ (mid1 ++ rest))) = some v := by
  have hdata : (pre ++ (v ++ (mid1 ++ rest))).data
      = pre.data ++ (v.data ++ (mid1.data ++ rest.data)) := by
    simp [String.data_append]
  have h1 : afterMarker markerOpen (pre ++ (v ++ (mid1 ++ rest))).data
      = some (v.data ++ (mid1.data ++ rest.data)) := by
    rw [hdata]
    exact afterMarker_append _ _ _ hpre
  have hsf : markerClose.isPrefixOf (mid1.data ++ rest.data) = true := by
    rw [isPrefixOf_append_of_le _ _ _ (isPrefixOf_length _ _ hmid)]
    exact hmid
  have h2 : takeUntilMarker markerClose (v.data ++ (mid1.data ++ rest.data)) = some v.data :=
    takeUntilMarker_prefix_close _ _ hv hsf
  rw [readFdkVersion, h1]
  simp [h2]

set_option maxRecDepth 100000 in
theorem readFdkVersion_pomFileContent (v jv pty : String)
    (hv : ∀ c ∈ v.data, c ≠ '<') :
    readFdkVersion (pomFileContent v jv pty) = some v := by
  rw [pomFileContent]
  split
  · rw [mavenPomFile]
    exact readFdkVersion_roundtrip_piece mavenPomPre mavenPomMid1 _ v (by decide) (by decide) hv
  · rw [bintrayPomFile]
    exact readFdkVersion_roundtrip_piece bintrayPomPre bintrayPomMid1 _ v (by decide) (by decide) hv

/-- C1: claimed — with no override, if the primary query fails and the
secondary query also fails, `GetLatestFDKVersion` returns no version and an
error naming `FN_JAVA_FDK_VERSION`. The code violates this: when both
registries answer 200 with bodies their parsers reject, the Go `err`
variable holds the nil result of the last successful GET, so the function
returns an empty version with a nil error (contradicting the code's own
comment "In all other case return error"). When both answer non-2xx, the
claimed error does appear. -/
theorem c1_both_sources_fail_no_error :
    GetLatestFDKVersion ⟨"8", "", ""⟩ envEmpty netBothMalformed =
      ⟨GoResult.ok "", ⟨"8", "", ""⟩, [Src.primary, Src.secondary]⟩ ∧
    (∀ msg : String, GoResult.ok "" ≠ (GoResult.err msg : GoResult String)) ∧
    GetLatestFDKVersion ⟨"8", "", ""⟩ envEmpty netBoth503 =
      ⟨GoResult.err fetchError, ⟨"8", "", ""⟩, [Src.primary, Src.secondary]⟩ ∧
    containsSubstring versionEnv.data fetchError.data = true := by
  refine ⟨by decide, fun msg h => GoResult.noConfusion h, by decide, by decide⟩

/-- C2: claimed — for every resolver state, a non-empty override value `V` is
returned with no network query and no cache change. Counterexample: with
`"1.0.0"` cached and the override set to `"2.0.0"`, the cached value is
returned instead of `V` — the in-process cache check precedes the override
check. -/
theorem c2_cached_value_beats_override :
    envOverride versionEnv = "2.0.0" ∧
    GetLatestFDKVersion ⟨"8", "1.0.0", "maven"⟩ envOverride netUnreachable =
      ⟨GoResult.ok "1.0.0", ⟨"8", "1.0.0", "maven"⟩, []⟩ ∧
    (GoResult.ok "1.0.0" : GoResult String) ≠ GoResult.ok "2.0.0" := by
  refine ⟨by decide, by decide, by decide⟩

/-- C2 (amended): when no version is cached in-process, a non-empty
`FN_JAVA_FDK_VERSION` value is returned immediately with no error, no
network query, and an unchanged helper state, regardless of network
behaviour. -/
theorem c2_override_when_uncached (h : JavaLangHelper) (env : String → String)
    (net : Network) (hcache : h.latestFdkVersion = "")
    (henv : env versionEnv ≠ "") :
    GetLatestFDKVersion h env net = ⟨GoResult.ok (env versionEnv), h, []⟩ := by
  simp [GetLatestFDKVersion, hcache, henv]

theorem c2_override_when_uncached_witness :
    GetLatestFDKVersion ⟨"8", "", ""⟩ envOverride netUnreachable =
      ⟨GoResult.ok "2.0.0", ⟨"8", "", ""⟩, []⟩ := by
  have h := c2_override_when_uncached ⟨"8", "", ""⟩ envOverride netUnreachable rfl
    (by decide)
  exact h

/-- C3: with nothing cached and no override, a primary registry answer of 200
whose metadata has at least one `versioning/versions/version` entry makes
`GetLatestFDKVersion` return the document's `versioning/latest`, cache it
with pomType `"maven"`, and never query the secondary registry. -/
theorem c3_primary_short_circuits (h : JavaLangHelper) (env : String → String)
    (net : Network) (m : MavenMetadata)
    (hcache : h.latestFdkVersion = "") (henv : env versionEnv = "")
    (hnet : net.primary = HTTPResult.response 200 (Body.xmlMetadata m))
    (hne : m.versioning.versions.version ≠ []) :
    GetLatestFDKVersion h env net =
      ⟨GoResult.ok m.versioning.latest,
       { h with latestFdkVersion := m.versioning.latest, pomType := "maven" },
       [Src.primary]⟩ ∧
    Src.secondary ∉ (GetLatestFDKVersion h env net).queries := by
  have hlen : ¬ m.versioning.versions.version.length = 0 := by
    simpa [List.length_eq_zero] using hne
  have heq : GetLatestFDKVersion h env net =
      ⟨GoResult.ok m.versioning.latest,
       { h with latestFdkVersion := m.versioning.latest, pomType := "maven" },
       [Src.primary]⟩ := by
    simp [GetLatestFDKVersion, hcache, henv, getFDKLatestFromURL, getURLResponse,
      hnet, parseMavenResponse, hlen]
  refine ⟨heq, ?_⟩
  rw [heq]
  intro hmem
  simp at hmem

theorem c3_primary_short_circuits_witness :
    GetLatestFDKVersion ⟨"8", "", ""⟩ envEmpty netPrimaryOk =
      ⟨GoResult.ok "1.2.3", ⟨"8", "1.2.3", "maven"⟩, [Src.primary]⟩ ∧
    Src.secondary ∉ (GetLatestFDKVersion ⟨"8", "", ""⟩ envEmpty netPrimaryOk).queries := by
  have h := c3_primary_short_circuits ⟨"8", "", ""⟩ envEmpty netPrimaryOk mTwoVersions
    rfl rfl rfl (by decide)
  exact h

/-- C4: claimed — with the primary registry unreachable and the secondary
answering 200 with `[{"latest_version":"2.3.1"}]`, resolution yields
`"2.3.1"` tagged `"bintray"`. The code violates this: a transport error
makes `getURLResponse` panic (nil `resp` dereferenced by
`defer resp.Body.Close()` and by `resp.StatusCode`), so the secondary is
never consulted. With a non-2xx primary answer instead, the fallback does
yield `"2.3.1"`/`"bintray"`. -/
theorem c4_unreachable_primary_panics :
    GetLatestFDKVersion ⟨"8", "", ""⟩ envEmpty netPrimaryUnreachable =
      ⟨GoResult.panicked, ⟨"8", "", ""⟩, [Src.primary]⟩ ∧
    GetLatestFDKVersion ⟨"8", "", ""⟩ envEmpty netPrimary503 =
      ⟨GoResult.ok "2.3.1", ⟨"8", "2.3.1", "bintray"⟩, [Src.primary, Src.secondary]⟩ := by
  refine ⟨by decide, by decide⟩

/-- C5: if the manifest `pom.xml` already exists in the target directory,
`GenerateBoilerplate` returns `ErrBoilerplateExists` and performs zero
filesystem writes, leaving the helper state unchanged. -/
theorem c5_no_overwrite (h : JavaLangHelper) (path : String) (fs : String → Bool)
    (env : String → String) (net : Network)
    (hex : fs (joinPath path "pom.xml") = true) :
    GenerateBoilerplate h path fs env net =
      ⟨GoResult.err ErrBoilerplateExists, h, [], []⟩ := by
  simp [GenerateBoilerplate, hex]

theorem c5_no_overwrite_witness :
    fsWithPom (joinPath "proj" "pom.xml") = true ∧
    GenerateBoilerplate ⟨"8", "", ""⟩ "proj" fsWithPom envEmpty netPrimaryOk =
      ⟨GoResult.err ErrBoilerplateExists, ⟨"8", "", ""⟩, [], []⟩ := by
  exact ⟨by decide, c5_no_overwrite ⟨"8", "", ""⟩ "proj" fsWithPom envEmpty netPrimaryOk
    (by decide)⟩

/-- C7: `DockerfileBuildCmds` always returns exactly these five instructions
in order — the `ENV MAVEN_OPTS` line, `ADD pom.xml`, the dependency-fetching
`RUN mvn` line carrying `--fail-never`, `ADD src`, and `RUN mvn package`. -/
theorem c7_build_stage_instructions (urlParse : String → Option GoURL)
    (env : String → String) :
    DockerfileBuildCmds urlParse env =
      ["ENV MAVEN_OPTS " ++ mavenOpts urlParse env,
       "ADD pom.xml /function/pom.xml",
       "RUN [\"mvn\", \"package\", \"dependency:copy-dependencies\", \"-DincludeScope=runtime\", \"-DskipTests=true\", \"-Dmdep.prependGroupId=true\", \"-DoutputDirectory=target\", \"--fail-never\"]",
       "ADD src /function/src",
       "RUN [\"mvn\", \"package\"]"] ∧
    (DockerfileBuildCmds urlParse env).length = 5 ∧
    containsSubstring "--fail-never".data
      ((DockerfileBuildCmds urlParse env).getD 2 "").data = true := by
  refine ⟨rfl, rfl, ?_⟩
  have hg : (DockerfileBuildCmds urlParse env).getD 2 "" =
      "RUN [\"mvn\", \"package\", \"dependency:copy-dependencies\", \"-DincludeScope=runtime\", \"-DskipTests=true\", \"-Dmdep.prependGroupId=true\", \"-DoutputDirectory=target\", \"--fail-never\"]" := rfl
  rw [hg]
  decide

/-- C8: the `MAVEN_OPTS` value sets `http.nonProxyHosts` to `no_proxy` with
every comma replaced by a pipe, and derives `http.proxyHost`/`http.proxyPort`
and `https.proxyHost`/`https.proxyPort` from the parsed `http_proxy` and
`https_proxy` URLs respectively. -/
theorem c8_proxy_translation (urlParse : String → Option GoURL)
    (env : String → String) (u1 u2 : GoURL)
    (h1 : urlParse (env "http_proxy") = some u1)
    (h2 : urlParse (env "https_proxy") = some u2) :
    mavenOpts urlParse env =
      ("-Dhttp.proxyHost=" ++ u1.hostname ++ " " ++ ("-Dhttp.proxyPort=" ++ u1.port ++ " ")) ++
      ("-Dhttps.proxyHost=" ++ u2.hostname ++ " " ++ ("-Dhttps.proxyPort=" ++ u2.port ++ " ")) ++
      ("-Dhttp.nonProxyHosts=" ++ goReplaceCommaPipe (env "no_proxy") ++ " ") ++
      "-Dmaven.repo.local=/usr/share/maven/ref/repository" ∧
    (goReplaceCommaPipe (env "no_proxy")).data =
      (env "no_proxy").data.map (fun c => if c = ',' then '|' else c) := by
  constructor
  · simp [mavenOpts, h1, h2]
  · have hmap : ∀ l : List Char,
        replaceCommaPipeChars l = l.map (fun c => if c = ',' then '|' else c) := by
      intro l
      induction l with
      | nil => rfl
      | cons c cs ih => simp [replaceCommaPipeChars, ih]
    simp [goReplaceCommaPipe, hmap]

set_option maxRecDepth 100000 in
theorem c8_proxy_translation_witness :
    mavenOpts urlParseTest envProxy =
      "-Dhttp.proxyHost=p1 -Dhttp.proxyPort=3128 -Dhttps.proxyHost=p2 -Dhttps.proxyPort=3129 -Dhttp.nonProxyHosts=localhost|127.0.0.1 -Dmaven.repo.local=/usr/share/maven/ref/repository" := by
  have h := c8_proxy_translation urlParseTest envProxy ⟨"p1", "3128"⟩ ⟨"p2", "3129"⟩
    (by decide) (by decide)
  exact h.1.trans (by decide)

/-- C9: claimed — `parseBintrayResponse` returns a value or an error on every
well-formed JSON array, including `[]`, without out-of-bounds indexing. The
code violates this: `json.Unmarshal` resets the `make([]parsedResponse, 1)`
slice to the decoded array's length, so on `[]` the access `parsedResp[0]`
panics with an index-out-of-range error; on a non-empty array the first
element's `latest_version` is returned. -/
theorem c9_empty_array_panics :
    parseBintrayResponse (Body.jsonPackages []) = GoResult.panicked ∧
    parseBintrayResponse (Body.jsonPackages ["2.3.1", "2.0.0"]) = GoResult.ok "2.3.1" ∧
    parseBintrayResponse Body.malformed = GoResult.err "json unmarshal error" := by
  refine ⟨rfl, rfl, rfl⟩

/-- C10: the existing-manifest check runs before version resolution: when
`pom.xml` exists, `GenerateBoilerplate` returns `ErrBoilerplateExists` with
no registry query and an untouched helper cache, for every network behaviour
(including ones on which resolution would fail). -/
theorem c10_exists_check_precedes_resolution (h : JavaLangHelper) (path : String)
    (fs : String → Bool) (env : String → String) (net : Network)
    (hex : fs (joinPath path "pom.xml") = true) :
    (GenerateBoilerplate h path fs env net).res = GoResult.err ErrBoilerplateExists ∧
    (GenerateBoilerplate h path fs env net).queries = [] ∧
    (GenerateBoilerplate h path fs env net).helper = h := by
  simp [GenerateBoilerplate, hex]

theorem c10_exists_check_precedes_resolution_witness :
    (GenerateBoilerplate ⟨"8", "", ""⟩ "fn" fsWithPomFn envEmpty netUnreachable).res =
      GoResult.err ErrBoilerplateExists ∧
    (GenerateBoilerplate ⟨"8", "", ""⟩ "fn" fsWithPomFn envEmpty netUnreachable).queries = [] ∧
    (GenerateBoilerplate ⟨"8", "", ""⟩ "fn" fsWithPomFn envEmpty netUnreachable).helper =
      ⟨"8", "", ""⟩ := by
  exact c10_exists_check_precedes_resolution ⟨"8", "", ""⟩ "fn" fsWithPomFn envEmpty
    netUnreachable (by decide)

/-- C6: round-trip — every resolved version `v` (a version string, so free of
markup characters) is embedded by `pomFileContent` as the `fdk.version`
property of both the `"maven"` and the `"bintray"` manifest template, and the
`pom.xml` content recorded by a successful `GenerateBoilerplate` reads back
to exactly `v`. -/
theorem c6_version_roundtrip (v jv : String) (hv : ∀ c ∈ v.data, c ≠ '<') :
    readFdkVersion (pomFileContent v jv "maven") = some v ∧
    readFdkVersion (pomFileContent v jv "bintray") = some v ∧
    ∀ (h : JavaLangHelper) (path : String) (fs : String → Bool)
      (env : String → String) (net : Network),
      (GetLatestFDKVersion h env net).res = GoResult.ok v →
      fs (joinPath path "pom.xml") = false →
      ∃ content,
        FSOp.writeFile (joinPath path "pom.xml") content ∈
          (GenerateBoilerplate h path fs env net).ops ∧
        readFdkVersion content = some v := by
  refine ⟨readFdkVersion_pomFileContent v jv _ hv,
    readFdkVersion_pomFileContent v jv _ hv, ?_⟩
  intro h path fs env net hres hfs
  refine ⟨pomFileContent v (GetLatestFDKVersion h env net).helper.version
      (GetLatestFDKVersion h env net).helper.pomType, ?_,
    readFdkVersion_pomFileContent _ _ _ hv⟩
  simp only [GenerateBoilerplate, hfs, Bool.false_eq_true, if_false, hres]
  simp

theorem c6_version_roundtrip_witness :
    (∀ c ∈ "2.3.1".data, c ≠ '<') ∧
    readFdkVersion (pomFileContent "2.3.1" "8" "maven") = some "2.3.1" ∧
    readFdkVersion (pomFileContent "2.3.1" "8" "bintray") = some "2.3.1" ∧
    (∃ content,
      FSOp.writeFile (joinPath "proj" "pom.xml") content ∈
        (GenerateBoilerplate ⟨"8", "", ""⟩ "proj" fsNone envOverride231 netUnreachable).ops ∧
      readFdkVersion content = some "2.3.1") := by
  have h := c6_version_roundtrip "2.3.1" "8" (by decide)
  exact ⟨by decide, h.1, h.2.1,
    h.2.2 ⟨"8", "", ""⟩ "proj" fsNone envOverride231 netUnreachable (by decide) rfl⟩
